import Mathlib

/-!
Shallow embedding of the `lovetown` haptics client (TypeScript sources
`src/unnamed/part_000` and `src/src/index.ts`).

The program is event-driven glue around an external device-control library:
`lovetownConnect(cxt)` parses `cxt.connectAddress` with `new URL` (throws on a
malformed address), registers a `deviceadded` listener and a
`scanningfinished` listener on a fresh client, connects (logging and returning
on failure) and starts scanning.  The `deviceadded` listener dispatches at
most one action command per invocation (vibrate, else linear), arms a
`setTimeout` that stops the device after `cxt.timeout` milliseconds, and asks
the server to stop scanning.

We embed this as a deterministic function from the call's options and an
environment oracle (URL validity, connect outcome, the sequence of device
events the library delivers, per-device command outcomes) to an
`Except String (List Event)`: `Except.error` models the thrown URL-parse
error, `Except.ok tr` the trace of externally visible steps.  JavaScript
numbers are modelled as rationals (`ℚ`); JavaScript truthiness of a number is
`· ≠ 0`, of an array `true`, of a missing optional field `false`.  Timer
events record the delay in milliseconds after which they act: an armed
`setTimeout` with delay `t` later fires as a `stopCmd` carrying the same `t`,
and all pending timers fire after the synchronous part of the session
(faithful to the event loop: handlers run immediately, timers strictly
later).
-/

/-- Payload of the `vibrate` option: a scalar speed or a per-motor array
(`number | number[]` in the source). -/
inductive VibratePayload where
  | single (v : ℚ)
  | multi (vs : List ℚ)
deriving DecidableEq

/-- Payload of the `linear` option: a scalar position or an array of
(position, time-offset) waypoints (`number | [number, number][]`). -/
inductive LinearPayload where
  | single (p : ℚ)
  | waypoints (ws : List (ℚ × ℚ))
deriving DecidableEq

/-- JavaScript truthiness of a `vibrate` payload: a number is truthy iff it
is nonzero; an array (even an empty one) is always truthy. -/
def VibratePayload.truthy : VibratePayload → Bool
  | .single v => decide (v ≠ 0)
  | .multi _ => true

/-- JavaScript truthiness of a `linear` payload: a number is truthy iff it
is nonzero; an array (even an empty one) is always truthy. -/
def LinearPayload.truthy : LinearPayload → Bool
  | .single p => decide (p ≠ 0)
  | .waypoints _ => true

/-- Truthiness of the optional `vibrate` field, as tested by
`if (cxt.vibrate)`: absent is falsy. -/
def vibrateOptTruthy : Option VibratePayload → Bool
  | none => false
  | some p => p.truthy

/-- Truthiness of the optional `linear` field, as tested by
`cxt.linear && ...`: absent is falsy. -/
def linearOptTruthy : Option LinearPayload → Bool
  | none => false
  | some l => l.truthy

/-- Truthiness of an optional numeric field such as `cxt.linearDuration`:
absent and `0` are falsy. -/
def numOptTruthy : Option ℚ → Bool
  | none => false
  | some d => decide (d ≠ 0)

/-- The `LovetownOptions` interface of the source: the argument of
`lovetownConnect`. -/
structure LovetownOptions where
  connectAddress : String
  timeout : ℚ
  vibrate : Option VibratePayload
  linear : Option LinearPayload
  linearDuration : Option ℚ

/-- One discovered device as delivered by a `deviceadded` event.
`vibrateAttributes` and `linearAttributes` are the lengths of the
corresponding attribute lists of the source's `ButtplugClientDevice`; the
code only ever compares those lengths with `0`.  `vibrateOk` / `linearOk`
are the environment's oracle for whether the awaited `device.vibrate` /
`device.linear` submission resolves or rejects. -/
structure Device where
  id : ℕ
  vibrateAttributes : ℕ
  linearAttributes : ℕ
  vibrateOk : Bool
  linearOk : Bool
deriving DecidableEq

/-- Externally visible steps of a session, in order of occurrence.
`stopTimerArmed i t` records `setTimeout(.. device.stop() .., t)` being armed
for device `i`; `stopCmd i t` is that timer firing `t` milliseconds later and
issuing `device.stop()`.  `uncaughtRejection i` records the `deviceadded`
listener's promise rejecting (the awaited command submission failed and
nothing in the listener catches it). -/
inductive Event where
  | connectAttempt
  | connected
  | connectErrorLogged
  | startScan
  | vibrateCmd (deviceId : ℕ) (speed : VibratePayload)
  | linearCmd (deviceId : ℕ) (position : LinearPayload) (duration : ℚ)
  | stopTimerArmed (deviceId : ℕ) (delay : ℚ)
  | stopCmd (deviceId : ℕ) (delay : ℚ)
  | stopScan
  | scanningFinishedLogged
  | uncaughtRejection (deviceId : ℕ)
deriving DecidableEq

/-- One invocation of the `deviceadded` listener of `lovetownConnect`:

    if (cxt.vibrate) {
      if (device.vibrateAttributes.length > 0) {
        await device.vibrate(cxt.vibrate);
        setTimeout(async () => { await device.stop(); }, cxt.timeout);
      }
    } else if (cxt.linear && cxt.linearDuration) {
      if (device.linearAttributes.length > 0) {
        await device.linear(cxt.linear, cxt.linearDuration);
        setTimeout(async () => { await device.stop(); }, cxt.timeout);
      }
    }
    await client.stopScanning();

A rejected `await` aborts the rest of the listener body, so on a failed
submission the timer is not armed and `stopScanning` is not reached; the
listener's promise rejects uncaught. -/
def deviceAddedHandler (cxt : LovetownOptions) (device : Device) : List Event :=
  if vibrateOptTruthy cxt.vibrate then
    match cxt.vibrate with
    | some p =>
      if device.vibrateAttributes > 0 then
        if device.vibrateOk then
          [Event.vibrateCmd device.id p,
           Event.stopTimerArmed device.id cxt.timeout,
           Event.stopScan]
        else
          [Event.vibrateCmd device.id p, Event.uncaughtRejection device.id]
      else [Event.stopScan]
    | none => [Event.stopScan]
  else if linearOptTruthy cxt.linear && numOptTruthy cxt.linearDuration then
    match cxt.linear, cxt.linearDuration with
    | some l, some dur =>
      if device.linearAttributes > 0 then
        if device.linearOk then
          [Event.linearCmd device.id l dur,
           Event.stopTimerArmed device.id cxt.timeout,
           Event.stopScan]
        else
          [Event.linearCmd device.id l dur, Event.uncaughtRejection device.id]
      else [Event.stopScan]
    | _, _ => [Event.stopScan]
  else [Event.stopScan]

/-- Environment oracle for one `lovetownConnect` session: whether `new URL`
accepts the address, whether `client.connect` resolves, the `deviceadded`
events the library delivers on the live connection (in delivery order), and
whether a `scanningfinished` event is observed. -/
structure Env where
  urlValid : String → Bool
  connectOk : Bool
  devices : List Device
  scanningFinished : Bool

/-- The synchronous part of a successfully connected session: connect,
start scanning, run the `deviceadded` listener once per delivered device,
and log the `scanningfinished` notification when the server emits one. -/
def sessionMain (cxt : LovetownOptions) (env : Env) : List Event :=
  [Event.connectAttempt, Event.connected, Event.startScan]
    ++ env.devices.flatMap (deviceAddedHandler cxt)
    ++ (if env.scanningFinished then [Event.scanningFinishedLogged] else [])

/-- Every armed one-shot timer later fires, in arming order, issuing
`device.stop()` to the device it captured, after the delay it was armed
with.  Nothing cancels a timer and nothing conditions its firing. -/
def fireTimers (tr : List Event) : List Event :=
  tr.filterMap fun e =>
    match e with
    | Event.stopTimerArmed i t => some (Event.stopCmd i t)
    | _ => none

/-- The error message carried by the model of a `new URL` throw. -/
def urlParseError : String := "Invalid URL"

/-- The `lovetownConnect` entry point of `src/unnamed/part_000`: parse the
address (throw on a malformed one), register the listeners, try to connect
(log and return on failure), then start scanning; device events drive the
listener, and armed stop timers fire after the synchronous part. -/
def lovetownConnect (cxt : LovetownOptions) (env : Env) :
    Except String (List Event) :=
  if env.urlValid cxt.connectAddress then
    if env.connectOk then
      Except.ok (sessionMain cxt env ++ fireTimers (sessionMain cxt env))
    else
      Except.ok [Event.connectAttempt, Event.connectErrorLogged]
  else Except.error urlParseError

/-- The `lovetownSend` entry point: forwards its positional arguments to
`lovetownConnect` as the options object with the same fields (its `vibrate`
parameter is a scalar in the source's declared type). -/
def lovetownSend (connectAddress : String) (timeout : ℚ)
    (vibrate : Option ℚ) (linear : Option LinearPayload)
    (linearDuration : Option ℚ) (env : Env) : Except String (List Event) :=
  lovetownConnect
    ⟨connectAddress, timeout, vibrate.map VibratePayload.single, linear,
     linearDuration⟩ env

/-- One discovered device in a `lovetownRuntime` session, together with the
clicks the environment delivers on the anchor elements the listener binds:
each click submits `device.vibrate(1.0)` and arms a 3000 ms stop timer. -/
structure RuntimeDevice where
  id : ℕ
  vibrateAttributes : ℕ
  linkClicks : ℕ
  vibrateOk : Bool

/-- Environment oracle for one `lovetownRuntime` session. -/
structure RuntimeEnv where
  urlValid : String → Bool
  connectOk : Bool
  devices : List RuntimeDevice
  scanningFinished : Bool

/-- One click on a bound anchor element for a vibration-capable device in
`lovetownRuntime`: `await device.vibrate(1.0)` then a 3000 ms stop timer;
a rejected submission leaves the click listener's promise rejected and arms
no timer. -/
def runtimeClick (device : RuntimeDevice) : List Event :=
  if device.vibrateOk then
    [Event.vibrateCmd device.id (VibratePayload.single 1),
     Event.stopTimerArmed device.id 3000]
  else
    [Event.vibrateCmd device.id (VibratePayload.single 1),
     Event.uncaughtRejection device.id]

/-- Click-driven events of one `lovetownRuntime` device: the listener binds
click handlers only when the device has a vibration actuator. -/
def runtimeClickEvents (device : RuntimeDevice) : List Event :=
  if device.vibrateAttributes > 0 then
    (List.range device.linkClicks).flatMap fun _ => runtimeClick device
  else []

/-- The synchronous part of a connected `lovetownRuntime` session: the
`deviceadded` listener only binds click handlers and calls `stopScanning`;
clicks arrive later, after discovery. -/
def runtimeMain (env : RuntimeEnv) : List Event :=
  [Event.connectAttempt, Event.connected, Event.startScan]
    ++ env.devices.flatMap (fun _ => [Event.stopScan])
    ++ (if env.scanningFinished then [Event.scanningFinishedLogged] else [])
    ++ env.devices.flatMap runtimeClickEvents

/-- The `lovetownRuntime` entry point of `src/src/index.ts`: parse the
address with `new URL` (throw on a malformed one), register listeners, try
to connect (log and return on failure), then start scanning. -/
def lovetownRuntime (connectAddress : String) (env : RuntimeEnv) :
    Except String (List Event) :=
  if env.urlValid connectAddress then
    if env.connectOk then
      Except.ok (runtimeMain env ++ fireTimers (runtimeMain env))
    else
      Except.ok [Event.connectAttempt, Event.connectErrorLogged]
  else Except.error urlParseError

/-- Capability classification of a discovered device against the request,
as the spec's Capability Classifier describes the listener's branch
conditions. -/
inductive Capability where
  | supportsVibration
  | supportsLinear
  | unsupported
deriving DecidableEq

/-- The capability check the `deviceadded` listener performs inline: the
vibrate branch qualifies a device with a vibration actuator when
`cxt.vibrate` is truthy; otherwise the linear branch qualifies a device
with a linear actuator when both `cxt.linear` and `cxt.linearDuration` are
truthy; every other device is unsupported. -/
def classify (cxt : LovetownOptions) (device : Device) : Capability :=
  if vibrateOptTruthy cxt.vibrate then
    if device.vibrateAttributes > 0 then Capability.supportsVibration
    else Capability.unsupported
  else if linearOptTruthy cxt.linear && numOptTruthy cxt.linearDuration then
    if device.linearAttributes > 0 then Capability.supportsLinear
    else Capability.unsupported
  else Capability.unsupported

/-- An action command event (a `device.vibrate` or `device.linear`
submission). -/
def isActionCmd : Event → Bool
  | Event.vibrateCmd _ _ => true
  | Event.linearCmd _ _ _ => true
  | _ => false

/-- An action command event addressed to device `i`. -/
def isActionFor (i : ℕ) : Event → Bool
  | Event.vibrateCmd j _ => j == i
  | Event.linearCmd j _ _ => j == i
  | _ => false

/-- A `device.stop()` event addressed to device `i`. -/
def isStopFor (i : ℕ) : Event → Bool
  | Event.stopCmd j _ => j == i
  | _ => false

/-- A timer-arming event for device `i`. -/
def isArmFor (i : ℕ) : Event → Bool
  | Event.stopTimerArmed j _ => j == i
  | _ => false

/-- A console-logging event: the source calls `console.log` only in the
connect `catch` block and in the `scanningfinished` listener. -/
def isLogEvent : Event → Bool
  | Event.connectErrorLogged => true
  | Event.scanningFinishedLogged => true
  | _ => false

/-- Events the spec's scenario traces name: connection established, scanning
started and stopped, action commands and the delayed stop.  Timer arming,
the connect attempt itself, logging and uncaught rejections are internal. -/
def observableEvent : Event → Bool
  | Event.connected => true
  | Event.startScan => true
  | Event.vibrateCmd _ _ => true
  | Event.linearCmd _ _ _ => true
  | Event.stopScan => true
  | Event.stopCmd _ _ => true
  | _ => false

/-- The trace of a session result, empty when the call threw. -/
def okTrace : Except String (List Event) → List Event
  | Except.ok tr => tr
  | Except.error _ => []

/-! Helper lemmas about one `deviceadded` listener invocation.  Each is
proved by exhausting the listener's branch structure. -/

theorem stopCmd_not_mem_handler (cxt : LovetownOptions) (d : Device)
    (i : ℕ) (t : ℚ) : Event.stopCmd i t ∉ deviceAddedHandler cxt d := by
  unfold deviceAddedHandler
  repeat' split
  all_goals simp

theorem arm_mem_handler (cxt : LovetownOptions) (d : Device) (i : ℕ) (t : ℚ)
    (h : Event.stopTimerArmed i t ∈ deviceAddedHandler cxt d) :
    i = d.id ∧ t = cxt.timeout := by
  unfold deviceAddedHandler at h
  repeat' split at h
  all_goals simp_all

theorem arm_mem_handler_action (cxt : LovetownOptions) (d : Device)
    (i : ℕ) (t : ℚ) (h : Event.stopTimerArmed i t ∈ deviceAddedHandler cxt d) :
    ∃ e ∈ deviceAddedHandler cxt d, isActionFor i e = true := by
  unfold deviceAddedHandler at h ⊢
  repeat' split at h
  all_goals simp_all [isActionFor]

theorem vibrateCmd_mem_handler (cxt : LovetownOptions) (d : Device)
    (i : ℕ) (p : VibratePayload)
    (h : Event.vibrateCmd i p ∈ deviceAddedHandler cxt d) :
    vibrateOptTruthy cxt.vibrate = true ∧ i = d.id ∧ cxt.vibrate = some p := by
  unfold deviceAddedHandler at h
  repeat' split at h
  all_goals simp_all

theorem linearCmd_mem_handler (cxt : LovetownOptions) (d : Device)
    (i : ℕ) (l : LinearPayload) (dur : ℚ)
    (h : Event.linearCmd i l dur ∈ deviceAddedHandler cxt d) :
    cxt.linear = some l ∧ cxt.linearDuration = some dur ∧ i = d.id := by
  unfold deviceAddedHandler at h
  repeat' split at h
  all_goals simp_all

theorem handler_action_count_le_one (cxt : LovetownOptions) (d : Device) :
    ((deviceAddedHandler cxt d).filter isActionCmd).length ≤ 1 := by
  unfold deviceAddedHandler
  repeat' split
  all_goals simp [isActionCmd]

theorem handler_no_log (cxt : LovetownOptions) (d : Device)
    (e : Event) (h : e ∈ deviceAddedHandler cxt d) : isLogEvent e = false := by
  unfold deviceAddedHandler at h
  repeat' split at h
  all_goals simp only [List.mem_cons, List.not_mem_nil, or_false] at h
  all_goals rcases h with rfl | rfl | rfl <;> rfl

/-! Helper lemmas about timer firing and the session trace. -/

theorem mem_fireTimers_stopCmd (m : List Event) (i : ℕ) (t : ℚ) :
    Event.stopCmd i t ∈ fireTimers m ↔ Event.stopTimerArmed i t ∈ m := by
  unfold fireTimers
  rw [List.mem_filterMap]
  constructor
  · rintro ⟨e, he, hmap⟩
    cases e <;> simp_all
  · intro h
    exact ⟨Event.stopTimerArmed i t, h, rfl⟩

theorem arm_not_mem_fireTimers (m : List Event) (i : ℕ) (t : ℚ) :
    Event.stopTimerArmed i t ∉ fireTimers m := by
  unfold fireTimers
  rw [List.mem_filterMap]
  rintro ⟨e, he, hmap⟩
  cases e <;> simp_all

theorem mem_fireTimers_shape (m : List Event) (e : Event)
    (h : e ∈ fireTimers m) : ∃ i t, e = Event.stopCmd i t := by
  unfold fireTimers at h
  rw [List.mem_filterMap] at h
  obtain ⟨a, _, hmap⟩ := h
  cases a <;> simp only [Option.some.injEq, reduceCtorEq] at hmap
  exact ⟨_, _, hmap.symm⟩

theorem fireTimers_filter_stopFor (i : ℕ) (m : List Event) :
    ((fireTimers m).filter (isStopFor i)).length
      = (m.filter (isArmFor i)).length := by
  induction m with
  | nil => rfl
  | cons e m ih =>
    cases e
    case stopTimerArmed j t =>
      have h1 : fireTimers (Event.stopTimerArmed j t :: m)
          = Event.stopCmd j t :: fireTimers m := rfl
      rw [h1]
      by_cases hj : j = i <;>
        simp [List.filter_cons, isStopFor, isArmFor, hj, ih]
    all_goals exact ih

theorem stopCmd_not_mem_sessionMain (cxt : LovetownOptions) (env : Env)
    (i : ℕ) (t : ℚ) : Event.stopCmd i t ∉ sessionMain cxt env := by
  intro h
  unfold sessionMain at h
  by_cases hsf : env.scanningFinished <;> simp [hsf] at h <;>
    obtain ⟨d, -, hd⟩ := h <;>
    exact stopCmd_not_mem_handler cxt d i t hd

theorem arm_mem_sessionMain (cxt : LovetownOptions) (env : Env)
    (i : ℕ) (t : ℚ) (h : Event.stopTimerArmed i t ∈ sessionMain cxt env) :
    ∃ d ∈ env.devices, Event.stopTimerArmed i t ∈ deviceAddedHandler cxt d := by
  unfold sessionMain at h
  by_cases hsf : env.scanningFinished <;> simp [hsf] at h <;> simpa using h

theorem lovetownConnect_ok_eq (cxt : LovetownOptions) (env : Env)
    (h1 : env.urlValid cxt.connectAddress = true) (h2 : env.connectOk = true) :
    lovetownConnect cxt env
      = Except.ok (sessionMain cxt env ++ fireTimers (sessionMain cxt env)) := by
  unfold lovetownConnect
  rw [h1, h2]
  simp

theorem mem_okTrace_lovetownConnect (cxt : LovetownOptions) (env : Env)
    (e : Event) (h : e ∈ okTrace (lovetownConnect cxt env)) :
    e = Event.connectAttempt ∨ e = Event.connectErrorLogged
      ∨ e ∈ sessionMain cxt env ∨ e ∈ fireTimers (sessionMain cxt env) := by
  unfold lovetownConnect okTrace at h
  by_cases hu : env.urlValid cxt.connectAddress <;>
    by_cases hc : env.connectOk <;>
    simp only [hu, hc, if_true, if_false, Bool.false_eq_true,
      List.mem_append, List.mem_cons, List.not_mem_nil, or_false] at h <;>
    tauto

theorem linearCmd_not_mem_sessionMain (cxt : LovetownOptions) (env : Env)
    (i : ℕ) (l : LinearPayload) (dur : ℚ) (h2 : cxt.linearDuration = none) :
    Event.linearCmd i l dur ∉ sessionMain cxt env := by
  intro h
  unfold sessionMain at h
  by_cases hsf : env.scanningFinished <;> simp [hsf] at h <;>
    obtain ⟨d, -, hd⟩ := h <;>
    exact absurd ((linearCmd_mem_handler cxt d i l dur hd).2.1)
      (by simp [h2])

theorem vibrateCmd_not_mem_sessionMain (cxt : LovetownOptions) (env : Env)
    (i : ℕ) (p : VibratePayload) (h : vibrateOptTruthy cxt.vibrate = false) :
    Event.vibrateCmd i p ∉ sessionMain cxt env := by
  intro hm
  unfold sessionMain at hm
  by_cases hsf : env.scanningFinished <;> simp [hsf] at hm <;>
    obtain ⟨d, -, hd⟩ := hm <;>
    exact absurd ((vibrateCmd_mem_handler cxt d i p hd).1) (by simp [h])

theorem actionCount_flatMap (cxt : LovetownOptions) (ds : List Device) :
    ((ds.flatMap (deviceAddedHandler cxt)).filter isActionCmd).length
      = (ds.map
          (fun d => ((deviceAddedHandler cxt d).filter isActionCmd).length)).sum := by
  induction ds with
  | nil => rfl
  | cons d ds ih => simp [List.flatMap_cons, List.filter_append, ih]

theorem fireTimers_no_action (m : List Event) :
    (fireTimers m).filter isActionCmd = [] := by
  rw [List.filter_eq_nil_iff]
  intro e he
  obtain ⟨i, t, rfl⟩ := mem_fireTimers_shape m e he
  simp [isActionCmd]

theorem sessionTrace_actionCount (cxt : LovetownOptions) (env : Env) :
    (((sessionMain cxt env ++ fireTimers (sessionMain cxt env))).filter
        isActionCmd).length
      = (env.devices.map
          (fun d => ((deviceAddedHandler cxt d).filter isActionCmd).length)).sum := by
  rw [List.filter_append, List.length_append, fireTimers_no_action]
  simp only [List.length_nil, Nat.add_zero]
  unfold sessionMain
  rw [List.filter_append, List.filter_append]
  by_cases hsf : env.scanningFinished <;>
    simp [hsf, actionCount_flatMap, isActionCmd]

theorem handler_vibrate_falsy (cxt : LovetownOptions) (d : Device)
    (h : vibrateOptTruthy cxt.vibrate = false) :
    deviceAddedHandler cxt d
      = deviceAddedHandler
          ⟨cxt.connectAddress, cxt.timeout, none, cxt.linear,
           cxt.linearDuration⟩ d := by
  unfold deviceAddedHandler
  rw [h]
  rfl

/-! Claim theorems. -/

/-- C4: for every call to `lovetownConnect` (or `lovetownRuntime`) whose
`connectAddress` is not a well-formed URI, address parsing throws before any
connection attempt: the call's result is the thrown parse error, its trace is
empty, so no connector is created, no connect is issued, and no scanning,
dispatch or stop timer ever occurs. -/
theorem c4_malformed_address_throws_before_connect
    (cxt : LovetownOptions) (env : Env) (renv : RuntimeEnv)
    (h1 : env.urlValid cxt.connectAddress = false)
    (h2 : renv.urlValid cxt.connectAddress = false) :
    lovetownConnect cxt env = Except.error urlParseError
      ∧ lovetownRuntime cxt.connectAddress renv = Except.error urlParseError
      ∧ okTrace (lovetownConnect cxt env) = []
      ∧ okTrace (lovetownRuntime cxt.connectAddress renv) = [] := by
  unfold lovetownConnect lovetownRuntime
  rw [h1, h2]
  simp [okTrace]

/-- Witness for C4: a concrete malformed address is rejected by both entry
points before any connection attempt. -/
def c4Options : LovetownOptions :=
  ⟨"not a url", 3000, some (VibratePayload.single 1), none, none⟩

def c4Env : Env := ⟨fun _ => false, true, [⟨0, 1, 0, true, true⟩], false⟩

def c4REnv : RuntimeEnv := ⟨fun _ => false, true, [⟨0, 1, 1, true⟩], false⟩

theorem c4_witness :
    lovetownConnect c4Options c4Env = Except.error urlParseError
      ∧ lovetownRuntime c4Options.connectAddress c4REnv
          = Except.error urlParseError
      ∧ okTrace (lovetownConnect c4Options c4Env) = []
      ∧ okTrace (lovetownRuntime c4Options.connectAddress c4REnv) = [] :=
  c4_malformed_address_throws_before_connect c4Options c4Env c4REnv rfl rfl

/-- C5: for every session whose connection attempt fails, the error is
logged and the session terminates immediately: the whole trace is the
connect attempt followed by the logged error, so `startScanning` is never
called, no command is dispatched, no stop timer is armed, and nothing is
retried. -/
theorem c5_connect_failure_terminates (cxt : LovetownOptions) (env : Env)
    (i : ℕ) (t : ℚ)
    (h1 : env.urlValid cxt.connectAddress = true)
    (h2 : env.connectOk = false) :
    lovetownConnect cxt env
        = Except.ok [Event.connectAttempt, Event.connectErrorLogged]
      ∧ Event.connectErrorLogged ∈ okTrace (lovetownConnect cxt env)
      ∧ Event.startScan ∉ okTrace (lovetownConnect cxt env)
      ∧ (okTrace (lovetownConnect cxt env)).filter isActionCmd = []
      ∧ Event.stopTimerArmed i t ∉ okTrace (lovetownConnect cxt env)
      ∧ Event.stopCmd i t ∉ okTrace (lovetownConnect cxt env)
      ∧ ((okTrace (lovetownConnect cxt env)).filter
          (fun e => e == Event.connectAttempt)).length = 1 := by
  unfold lovetownConnect okTrace
  rw [h1, h2]
  refine ⟨rfl, ?_, ?_, ?_, ?_, ?_, ?_⟩ <;> simp [isActionCmd]

/-- Witness for C5: a concrete unreachable server. -/
def c5Options : LovetownOptions :=
  ⟨"ws://localhost:12345/buttplug", 3000, some (VibratePayload.single 1),
   none, none⟩

def c5Env : Env := ⟨fun _ => true, false, [⟨0, 1, 0, true, true⟩], false⟩

theorem c5_witness :
    lovetownConnect c5Options c5Env
        = Except.ok [Event.connectAttempt, Event.connectErrorLogged]
      ∧ Event.connectErrorLogged ∈ okTrace (lovetownConnect c5Options c5Env)
      ∧ Event.startScan ∉ okTrace (lovetownConnect c5Options c5Env)
      ∧ (okTrace (lovetownConnect c5Options c5Env)).filter isActionCmd = []
      ∧ Event.stopTimerArmed 0 3000 ∉ okTrace (lovetownConnect c5Options c5Env)
      ∧ Event.stopCmd 0 3000 ∉ okTrace (lovetownConnect c5Options c5Env)
      ∧ ((okTrace (lovetownConnect c5Options c5Env)).filter
          (fun e => e == Event.connectAttempt)).length = 1 :=
  c5_connect_failure_terminates c5Options c5Env 0 3000 rfl rfl

/-- C9: `lovetownSend` applied to positional arguments behaves identically
to `lovetownConnect` applied to the options object with the same fields:
it forwards and adds no behaviour of its own. -/
theorem c9_lovetownSend_forwards (connectAddress : String) (timeout : ℚ)
    (vibrate : Option ℚ) (linear : Option LinearPayload)
    (linearDuration : Option ℚ) (env : Env) :
    lovetownSend connectAddress timeout vibrate linear linearDuration env
      = lovetownConnect
          ⟨connectAddress, timeout, vibrate.map VibratePayload.single,
           linear, linearDuration⟩ env := rfl

/-- Scenario input of C8: request `{vibrate: 1.0, timeout: 3000}` against
`ws://localhost:12345/buttplug`. -/
def c8Options : LovetownOptions :=
  ⟨"ws://localhost:12345/buttplug", 3000, some (VibratePayload.single 1),
   none, none⟩

/-- Scenario environment of C8: exactly one discovered device with one
vibration actuator and no linear actuator. -/
def c8Env : Env := ⟨fun _ => true, true, [⟨0, 1, 0, true, true⟩], false⟩

/-- C8: in the scenario with options `{vibrate: 1.0, timeout: 3000}` and one
discovered device with 1 vibration actuator and 0 linear actuators, the
observable trace is connect, start-scan, vibrate(1.0), stop-scan and, 3000 ms
after arming, stop(); in particular the vibrate command precedes the
stop-scan. -/
theorem c8_scenario_trace :
    lovetownConnect c8Options c8Env = Except.ok
        [Event.connectAttempt, Event.connected, Event.startScan,
         Event.vibrateCmd 0 (VibratePayload.single 1),
         Event.stopTimerArmed 0 3000, Event.stopScan, Event.stopCmd 0 3000]
      ∧ (okTrace (lovetownConnect c8Options c8Env)).filter observableEvent
        = [Event.connected, Event.startScan,
           Event.vibrateCmd 0 (VibratePayload.single 1), Event.stopScan,
           Event.stopCmd 0 3000] := ⟨rfl, rfl⟩

/-- Session input for the C1 counterexample. -/
def c1Options : LovetownOptions :=
  ⟨"ws://localhost:12345/buttplug", 3000, some (VibratePayload.single 1),
   none, none⟩

/-- Environment for the C1 counterexample: two eligible devices are
reported via `deviceadded` before scanning stops. -/
def c1Env : Env :=
  ⟨fun _ => true, true, [⟨0, 1, 0, true, true⟩, ⟨1, 1, 0, true, true⟩], false⟩

/-- Counterexample to C1: with two eligible devices delivered before
scanning is stopped, the session dispatches two action commands, not at
most one — there is no dispatched flag in the code, so the second
`deviceadded` event is not a no-op. -/
theorem c1_counterexample :
    ((okTrace (lovetownConnect c1Options c1Env)).filter isActionCmd).length = 2
      ∧ ¬ ((okTrace (lovetownConnect c1Options c1Env)).filter
            isActionCmd).length ≤ 1
      ∧ Event.vibrateCmd 0 (VibratePayload.single 1)
          ∈ okTrace (lovetownConnect c1Options c1Env)
      ∧ Event.vibrateCmd 1 (VibratePayload.single 1)
          ∈ okTrace (lovetownConnect c1Options c1Env) := by
  refine ⟨rfl, by decide, by decide, by decide⟩

/-- C1 (amended): each `deviceadded` listener invocation dispatches at most
one action command (the vibrate and linear branches are mutually
exclusive); there is no dispatched flag, so a session's total number of
action commands is the sum over the delivered devices of their own
invocation's dispatches — one per eligible device, not at most one per
session. -/
theorem c1_amended_one_dispatch_per_event (cxt : LovetownOptions)
    (env : Env) (d : Device)
    (h1 : env.urlValid cxt.connectAddress = true)
    (h2 : env.connectOk = true) :
    ((deviceAddedHandler cxt d).filter isActionCmd).length ≤ 1
      ∧ ((okTrace (lovetownConnect cxt env)).filter isActionCmd).length
        = (env.devices.map
            (fun e => ((deviceAddedHandler cxt e).filter
              isActionCmd).length)).sum := by
  refine ⟨handler_action_count_le_one cxt d, ?_⟩
  rw [lovetownConnect_ok_eq cxt env h1 h2]
  exact sessionTrace_actionCount cxt env

/-- Witness for the amended C1, at the counterexample's own session: the
per-invocation bound and the per-device sum hold there. -/
theorem c1_amended_witness :
    ((deviceAddedHandler c1Options ⟨0, 1, 0, true, true⟩).filter
        isActionCmd).length ≤ 1
      ∧ ((okTrace (lovetownConnect c1Options c1Env)).filter
          isActionCmd).length
        = (c1Env.devices.map
            (fun e => ((deviceAddedHandler c1Options e).filter
              isActionCmd).length)).sum :=
  c1_amended_one_dispatch_per_event c1Options c1Env ⟨0, 1, 0, true, true⟩
    rfl rfl

/-- C2: for every call whose options contain a linear payload but no
`linearDuration`, and every discovered device regardless of its actuator
counts, the capability check never classifies the device as
supports-linear and no linear command is ever sent. -/
theorem c2_no_linear_without_duration (cxt : LovetownOptions)
    (l0 : LinearPayload) (env : Env) (d : Device) (i : ℕ)
    (l : LinearPayload) (dur : ℚ)
    (h1 : cxt.linear = some l0) (h2 : cxt.linearDuration = none) :
    classify cxt d ≠ Capability.supportsLinear
      ∧ Event.linearCmd i l dur ∉ okTrace (lovetownConnect cxt env) := by
  constructor
  · unfold classify
    rw [h2]
    simp only [numOptTruthy, Bool.and_false, Bool.false_eq_true, if_false]
    split <;> (try split) <;> simp
  · intro hm
    rcases mem_okTrace_lovetownConnect cxt env _ hm with h | h | h | h
    · exact Event.noConfusion h
    · exact Event.noConfusion h
    · exact linearCmd_not_mem_sessionMain cxt env i l dur h2 h
    · obtain ⟨j, t, he⟩ := mem_fireTimers_shape _ _ h
      exact Event.noConfusion he

/-- Witness inputs for C2: a waypoint linear request without a duration and
a device that does have a linear actuator. -/
def c2Options : LovetownOptions :=
  ⟨"ws://localhost:12345/buttplug", 2000, none,
   some (LinearPayload.waypoints [(1/2, 0), (1, 500)]), none⟩

def c2Env : Env := ⟨fun _ => true, true, [⟨0, 0, 1, true, true⟩], false⟩

theorem c2_witness :
    classify c2Options ⟨0, 0, 1, true, true⟩ ≠ Capability.supportsLinear
      ∧ Event.linearCmd 0 (LinearPayload.waypoints [(1/2, 0), (1, 500)]) 1000
          ∉ okTrace (lovetownConnect c2Options c2Env) :=
  c2_no_linear_without_duration c2Options
    (LinearPayload.waypoints [(1/2, 0), (1, 500)]) c2Env ⟨0, 0, 1, true, true⟩
    0 (LinearPayload.waypoints [(1/2, 0), (1, 500)]) 1000 rfl rfl

/-- Options for the C3 counterexample: the options contain a vibration
payload (`vibrate: 0`, inside the spec's valid intensity range) together
with a linear payload and duration. -/
def c3Options : LovetownOptions :=
  ⟨"ws://localhost:12345/buttplug", 1000, some (VibratePayload.single 0),
   some (LinearPayload.single 1), some 100⟩

/-- Device for the C3 counterexample: no vibration actuator, one linear
actuator. -/
def c3Device : Device := ⟨0, 0, 1, true, true⟩

def c3Env : Env := ⟨fun _ => true, true, [c3Device], false⟩

/-- Counterexample to C3: the options contain a vibration payload
(`vibrate: 0`) and the discovered device has 0 vibration actuators, yet an
action command (a linear command) is sent to that device, because the falsy
vibration value makes the listener fall through to the linear branch. -/
theorem c3_counterexample :
    c3Options.vibrate = some (VibratePayload.single 0)
      ∧ c3Device.vibrateAttributes = 0
      ∧ Event.linearCmd 0 (LinearPayload.single 1) 100
          ∈ okTrace (lovetownConnect c3Options c3Env)
      ∧ ((okTrace (lovetownConnect c3Options c3Env)).filter
          (isActionFor c3Device.id)).length = 1 := by
  refine ⟨rfl, rfl, by decide, by decide⟩

/-- C3 (amended): for every call whose options contain a truthy vibration
payload (a nonzero scalar or an array), the listener invocation for a
discovered device with 0 vibration actuators sends no action command at
all: the device is classified unsupported and its discovery is silently
ignored — the invocation only asks the server to stop scanning, and the
session does not fail. -/
theorem c3_amended_truthy_vibration_ignored (cxt : LovetownOptions)
    (d : Device) (h1 : vibrateOptTruthy cxt.vibrate = true)
    (h2 : d.vibrateAttributes = 0) :
    deviceAddedHandler cxt d = [Event.stopScan]
      ∧ classify cxt d = Capability.unsupported := by
  constructor
  · unfold deviceAddedHandler
    rw [h1]
    cases cxt.vibrate <;> simp [h2]
  · unfold classify
    rw [h1]
    simp [h2]

theorem c3_amended_witness :
    deviceAddedHandler
        ⟨"ws://localhost:12345/buttplug", 3000,
         some (VibratePayload.single 1), none, none⟩ ⟨7, 0, 4, true, true⟩
      = [Event.stopScan]
      ∧ classify
          ⟨"ws://localhost:12345/buttplug", 3000,
           some (VibratePayload.single 1), none, none⟩ ⟨7, 0, 4, true, true⟩
        = Capability.unsupported :=
  c3_amended_truthy_vibration_ignored _ _ (by decide) rfl

theorem isStopFor_true (i : ℕ) (e : Event) (h : isStopFor i e = true) :
    ∃ s, e = Event.stopCmd i s := by
  cases e <;> simp_all [isStopFor]

theorem isArmFor_true (i : ℕ) (e : Event) (h : isArmFor i e = true) :
    ∃ s, e = Event.stopTimerArmed i s := by
  cases e <;> simp_all [isArmFor]

theorem handler_sub_sessionMain (cxt : LovetownOptions) (env : Env)
    (d : Device) (e : Event) (hd : d ∈ env.devices)
    (he : e ∈ deviceAddedHandler cxt d) : e ∈ sessionMain cxt env := by
  have hmid : e ∈ env.devices.flatMap (deviceAddedHandler cxt) :=
    List.mem_flatMap.mpr ⟨d, hd, he⟩
  unfold sessionMain
  simp only [List.mem_append]
  tauto

/-- Options for the C6 counterexample. -/
def c6Options : LovetownOptions :=
  ⟨"ws://localhost:12345/buttplug", 3000, some (VibratePayload.single 1),
   none, none⟩

/-- Environment for the C6 counterexample: the first device's `vibrate`
submission rejects; a second, healthy device is delivered afterwards. -/
def c6Env : Env :=
  ⟨fun _ => true, true,
   [⟨0, 1, 0, false, true⟩, ⟨1, 1, 0, true, true⟩], false⟩

/-- Counterexample to C6: when the command submission for device 0 fails,
the trace contains no logging event at all — the listener has no catch
block, so the failure is NOT logged (it surfaces as an uncaught rejection)
and that invocation's `stopScanning` call is also skipped.  The rest of the
claim does hold here: no stop timer is armed for the failed attempt, the
submission is not retried, and device 1's dispatch and timer proceed
untouched. -/
theorem c6_counterexample :
    lovetownConnect c6Options c6Env = Except.ok
        [Event.connectAttempt, Event.connected, Event.startScan,
         Event.vibrateCmd 0 (VibratePayload.single 1),
         Event.uncaughtRejection 0,
         Event.vibrateCmd 1 (VibratePayload.single 1),
         Event.stopTimerArmed 1 3000, Event.stopScan, Event.stopCmd 1 3000]
      ∧ (okTrace (lovetownConnect c6Options c6Env)).filter isLogEvent = []
      ∧ Event.uncaughtRejection 0 ∈ okTrace (lovetownConnect c6Options c6Env)
      ∧ Event.stopTimerArmed 0 3000
          ∉ okTrace (lovetownConnect c6Options c6Env) := by
  refine ⟨rfl, rfl, by decide, by decide⟩

/-- C6 (amended): when an action-command submission fails, the listener
invocation ends with the command attempt followed by an uncaught rejection
and nothing else: the code logs nothing itself, the delayed stop timer is
not armed for that attempt, the submission is not retried (exactly one
command event), and that invocation's `stopScanning` call is skipped.
Other pending work is unaffected: the session trace is still the
concatenation of the per-invocation traces and the firing of every timer
that was armed, so other devices' dispatches and timers proceed. -/
theorem c6_amended_failed_submission (cxt : LovetownOptions)
    (p : VibratePayload) (l : LinearPayload) (dur : ℚ) (d : Device)
    (env : Env) :
    (cxt.vibrate = some p → p.truthy = true → 0 < d.vibrateAttributes →
      d.vibrateOk = false →
      deviceAddedHandler cxt d
        = [Event.vibrateCmd d.id p, Event.uncaughtRejection d.id])
      ∧ (vibrateOptTruthy cxt.vibrate = false → cxt.linear = some l →
        l.truthy = true → cxt.linearDuration = some dur → dur ≠ 0 →
        0 < d.linearAttributes → d.linearOk = false →
        deviceAddedHandler cxt d
          = [Event.linearCmd d.id l dur, Event.uncaughtRejection d.id])
      ∧ (env.urlValid cxt.connectAddress = true → env.connectOk = true →
        lovetownConnect cxt env
          = Except.ok
              (sessionMain cxt env ++ fireTimers (sessionMain cxt env))) := by
  refine ⟨?_, ?_, ?_⟩
  · intro hv hp h1 h2
    unfold deviceAddedHandler
    rw [hv]
    simp [vibrateOptTruthy, hp, h1, h2]
  · intro h0 hl hlt hdur hne h1 h2
    unfold deviceAddedHandler
    rw [h0, hl, hdur]
    simp [linearOptTruthy, numOptTruthy, hlt, hne, h1, h2]
  · intro hu hc
    exact lovetownConnect_ok_eq cxt env hu hc

/-- Witness inputs for the amended C6: a failing vibrate submission and a
failing linear submission. -/
def c6wOptionsL : LovetownOptions :=
  ⟨"ws://localhost:12345/buttplug", 2000, none,
   some (LinearPayload.single 1), some 100⟩

def c6wDeviceV : Device := ⟨0, 1, 0, false, true⟩

def c6wDeviceL : Device := ⟨1, 0, 1, true, false⟩

theorem c6_amended_witness :
    deviceAddedHandler c6Options c6wDeviceV
        = [Event.vibrateCmd 0 (VibratePayload.single 1),
           Event.uncaughtRejection 0]
      ∧ deviceAddedHandler c6wOptionsL c6wDeviceL
          = [Event.linearCmd 1 (LinearPayload.single 1) 100,
             Event.uncaughtRejection 1]
      ∧ lovetownConnect c6Options c6Env
          = Except.ok
              (sessionMain c6Options c6Env
                ++ fireTimers (sessionMain c6Options c6Env)) :=
  ⟨(c6_amended_failed_submission c6Options (VibratePayload.single 1)
      (LinearPayload.single 1) 100 c6wDeviceV c6Env).1 rfl (by decide)
      (by decide) rfl,
   (c6_amended_failed_submission c6wOptionsL (VibratePayload.single 1)
      (LinearPayload.single 1) 100 c6wDeviceL c6Env).2.1 rfl rfl (by decide)
      rfl (by decide) (by decide) rfl,
   (c6_amended_failed_submission c6Options (VibratePayload.single 1)
      (LinearPayload.single 1) 100 c6wDeviceV c6Env).2.2 rfl rfl⟩

theorem arm_mem_handler_of_vibrate (cxt : LovetownOptions) (d : Device)
    (h1 : vibrateOptTruthy cxt.vibrate = true) (h2 : 0 < d.vibrateAttributes)
    (h3 : d.vibrateOk = true) :
    Event.stopTimerArmed d.id cxt.timeout ∈ deviceAddedHandler cxt d := by
  unfold deviceAddedHandler
  cases hv : cxt.vibrate with
  | none =>
    rw [hv] at h1
    exact absurd h1 (by simp [vibrateOptTruthy])
  | some p =>
    rw [hv] at h1
    simp [h1, h2, h3]

theorem arm_mem_handler_of_linear (cxt : LovetownOptions) (d : Device)
    (h0 : vibrateOptTruthy cxt.vibrate = false)
    (h1 : linearOptTruthy cxt.linear = true)
    (h2 : numOptTruthy cxt.linearDuration = true)
    (h3 : 0 < d.linearAttributes) (h4 : d.linearOk = true) :
    Event.stopTimerArmed d.id cxt.timeout ∈ deviceAddedHandler cxt d := by
  unfold deviceAddedHandler
  rw [h0]
  cases hl : cxt.linear with
  | none =>
    rw [hl] at h1
    exact absurd h1 (by simp [linearOptTruthy])
  | some l =>
    cases hd : cxt.linearDuration with
    | none =>
      rw [hd] at h2
      exact absurd h2 (by simp [numOptTruthy])
    | some dur =>
      rw [hl] at h1
      rw [hd] at h2
      simp [h1, h2, h3, h4]

/-- C7: whenever an action command is successfully dispatched — the session
is connected, the listener's branch guard holds for a delivered device, the
device has the relevant actuator, and the submission resolves — a one-shot
stop timer is armed with the request's `timeout` as its delay and it fires
unconditionally, issuing `device.stop()` with that delay to the very device
that was dispatched to (the first two conjuncts, one per action kind);
moreover every armed timer in a trace has delay = `timeout`, fires, and
belongs to a device an action command was dispatched to; conversely every
`device.stop()` in a trace fires no earlier than the configured timeout and
comes from a timer armed for the same, dispatched-to device; and the timers
are one-shot — per device the stops in the trace are in bijection with the
armed timers. -/
theorem c7_delayed_stop (cxt : LovetownOptions) (env : Env)
    (tr : List Event) (d : Device) (i : ℕ) (t : ℚ)
    (h : lovetownConnect cxt env = Except.ok tr) :
    (env.connectOk = true → d ∈ env.devices →
      vibrateOptTruthy cxt.vibrate = true → 0 < d.vibrateAttributes →
      d.vibrateOk = true →
      Event.stopTimerArmed d.id cxt.timeout ∈ tr
        ∧ Event.stopCmd d.id cxt.timeout ∈ tr)
      ∧ (env.connectOk = true → d ∈ env.devices →
        vibrateOptTruthy cxt.vibrate = false →
        linearOptTruthy cxt.linear = true →
        numOptTruthy cxt.linearDuration = true →
        0 < d.linearAttributes → d.linearOk = true →
        Event.stopTimerArmed d.id cxt.timeout ∈ tr
          ∧ Event.stopCmd d.id cxt.timeout ∈ tr)
      ∧ (Event.stopTimerArmed i t ∈ tr →
        t = cxt.timeout ∧ Event.stopCmd i t ∈ tr
          ∧ tr.filter (isActionFor i) ≠ [])
      ∧ (Event.stopCmd i t ∈ tr →
        cxt.timeout ≤ t ∧ Event.stopTimerArmed i t ∈ tr
          ∧ tr.filter (isActionFor i) ≠ [])
      ∧ (tr.filter (isStopFor i)).length
        = (tr.filter (isArmFor i)).length := by
  unfold lovetownConnect at h
  by_cases hu : env.urlValid cxt.connectAddress
  · rw [if_pos hu] at h
    by_cases hc : env.connectOk
    · rw [if_pos hc] at h
      obtain rfl : sessionMain cxt env ++ fireTimers (sessionMain cxt env)
          = tr := by
        injection h
      set m := sessionMain cxt env with hm
      have hfire : ∀ e : Device, e ∈ env.devices →
          Event.stopTimerArmed e.id cxt.timeout ∈ deviceAddedHandler cxt e →
          Event.stopTimerArmed e.id cxt.timeout ∈ m ++ fireTimers m
            ∧ Event.stopCmd e.id cxt.timeout ∈ m ++ fireTimers m := by
        intro e he harm
        have hmm := handler_sub_sessionMain cxt env e _ he harm
        exact ⟨List.mem_append.mpr (Or.inl hmm),
          List.mem_append.mpr
            (Or.inr ((mem_fireTimers_stopCmd m e.id cxt.timeout).mpr hmm))⟩
      have harm_main : ∀ s : ℚ, Event.stopTimerArmed i s ∈ m ++ fireTimers m →
          Event.stopTimerArmed i s ∈ m := by
        intro s hs
        rcases List.mem_append.mp hs with h' | h'
        · exact h'
        · exact absurd h' (arm_not_mem_fireTimers m i s)
      have haction : ∀ s : ℚ, Event.stopTimerArmed i s ∈ m →
          (m ++ fireTimers m).filter (isActionFor i) ≠ [] := by
        intro s hs
        obtain ⟨e, hd, hmem⟩ := arm_mem_sessionMain cxt env i s hs
        obtain ⟨hi, -⟩ := arm_mem_handler cxt e i s hmem
        obtain ⟨a, ha, hp⟩ := arm_mem_handler_action cxt e i s hmem
        intro hnil
        exact (List.filter_eq_nil_iff.mp hnil a
          (List.mem_append.mpr
            (Or.inl (handler_sub_sessionMain cxt env e a hd ha)))) hp
      refine ⟨?_, ?_, ?_, ?_, ?_⟩
      · intro _ hd hv h2 h3
        exact hfire d hd (arm_mem_handler_of_vibrate cxt d hv h2 h3)
      · intro _ hd h0 h1 h2 h3 h4
        exact hfire d hd (arm_mem_handler_of_linear cxt d h0 h1 h2 h3 h4)
      · intro harm
        have hmm := harm_main t harm
        obtain ⟨e, hd, hmem⟩ := arm_mem_sessionMain cxt env i t hmm
        obtain ⟨-, ht⟩ := arm_mem_handler cxt e i t hmem
        refine ⟨ht, ?_, haction t hmm⟩
        exact List.mem_append.mpr
          (Or.inr ((mem_fireTimers_stopCmd m i t).mpr hmm))
      · intro hstop
        have hfired : Event.stopCmd i t ∈ fireTimers m := by
          rcases List.mem_append.mp hstop with h' | h'
          · exact absurd h' (stopCmd_not_mem_sessionMain cxt env i t)
          · exact h'
        have hmm : Event.stopTimerArmed i t ∈ m :=
          (mem_fireTimers_stopCmd m i t).mp hfired
        obtain ⟨e, hd, hmem⟩ := arm_mem_sessionMain cxt env i t hmm
        obtain ⟨-, ht⟩ := arm_mem_handler cxt e i t hmem
        exact ⟨le_of_eq ht.symm, List.mem_append.mpr (Or.inl hmm),
          haction t hmm⟩
      · have hms : m.filter (isStopFor i) = [] := by
          rw [List.filter_eq_nil_iff]
          intro e he hp
          obtain ⟨s, rfl⟩ := isStopFor_true i e hp
          exact stopCmd_not_mem_sessionMain cxt env i s he
        have hfa : (fireTimers m).filter (isArmFor i) = [] := by
          rw [List.filter_eq_nil_iff]
          intro e he hp
          obtain ⟨s, rfl⟩ := isArmFor_true i e hp
          exact arm_not_mem_fireTimers m i s he
        rw [List.filter_append, List.filter_append, List.length_append,
          List.length_append, hms, hfa, fireTimers_filter_stopFor]
        simp
    · rw [if_neg hc] at h
      obtain rfl : [Event.connectAttempt, Event.connectErrorLogged] = tr := by
        injection h
      refine ⟨?_, ?_, ?_, ?_, rfl⟩
      · intro hc'
        exact absurd hc' hc
      · intro hc'
        exact absurd hc' hc
      · intro hmem
        simp at hmem
      · intro hmem
        simp at hmem
  · rw [if_neg hu] at h
    exact absurd h (by simp)

/-- Witness inputs for C7: a session that successfully dispatches a vibrate
command to one device. -/
def c7Options : LovetownOptions :=
  ⟨"ws://localhost:12345/buttplug", 3000, some (VibratePayload.single 1),
   none, none⟩

def c7Env : Env := ⟨fun _ => true, true, [⟨0, 1, 0, true, true⟩], false⟩

/-- The trace of the C7 vibrate witness session. -/
def c7Trace : List Event :=
  [Event.connectAttempt, Event.connected, Event.startScan,
   Event.vibrateCmd 0 (VibratePayload.single 1), Event.stopTimerArmed 0 3000,
   Event.stopScan, Event.stopCmd 0 3000]

/-- Witness inputs for C7, linear side: a session that successfully
dispatches a linear command to one device. -/
def c7LinOptions : LovetownOptions :=
  ⟨"ws://localhost:12345/buttplug", 2000, none,
   some (LinearPayload.single 1), some 100⟩

def c7LinEnv : Env := ⟨fun _ => true, true, [⟨1, 0, 1, true, true⟩], false⟩

/-- The trace of the C7 linear witness session. -/
def c7LinTrace : List Event :=
  [Event.connectAttempt, Event.connected, Event.startScan,
   Event.linearCmd 1 (LinearPayload.single 1) 100,
   Event.stopTimerArmed 1 2000, Event.stopScan, Event.stopCmd 1 2000]

theorem c7_witness :
    (Event.stopTimerArmed 0 3000 ∈ c7Trace
        ∧ Event.stopCmd 0 3000 ∈ c7Trace)
      ∧ (Event.stopTimerArmed 1 2000 ∈ c7LinTrace
        ∧ Event.stopCmd 1 2000 ∈ c7LinTrace)
      ∧ ((3000 : ℚ) = c7Options.timeout ∧ Event.stopCmd 0 3000 ∈ c7Trace
        ∧ c7Trace.filter (isActionFor 0) ≠ [])
      ∧ (c7Options.timeout ≤ 3000 ∧ Event.stopTimerArmed 0 3000 ∈ c7Trace
        ∧ c7Trace.filter (isActionFor 0) ≠ [])
      ∧ (c7Trace.filter (isStopFor 0)).length
        = (c7Trace.filter (isArmFor 0)).length :=
  ⟨(c7_delayed_stop c7Options c7Env c7Trace ⟨0, 1, 0, true, true⟩ 0 3000
      rfl).1 rfl (by decide) (by decide) (by decide) rfl,
   (c7_delayed_stop c7LinOptions c7LinEnv c7LinTrace ⟨1, 0, 1, true, true⟩ 1
      2000 rfl).2.1 rfl (by decide) rfl (by decide) (by decide) (by decide)
      rfl,
   (c7_delayed_stop c7Options c7Env c7Trace ⟨0, 1, 0, true, true⟩ 0 3000
      rfl).2.2.1 (by decide),
   (c7_delayed_stop c7Options c7Env c7Trace ⟨0, 1, 0, true, true⟩ 0 3000
      rfl).2.2.2.1 (by decide),
   (c7_delayed_stop c7Options c7Env c7Trace ⟨0, 1, 0, true, true⟩ 0 3000
      rfl).2.2.2.2⟩

/-- C10: a call whose options set `vibrate` to `0` — a value inside the
spec's valid intensity range — behaves exactly as if `vibrate` were absent:
the truthiness test `if (cxt.vibrate)` skips the vibration branch, no
vibrate command is ever sent to any device, and the listener falls through
to consider the linear branch. -/
theorem c10_zero_vibration_falls_through (cxt : LovetownOptions)
    (env : Env) (i : ℕ) (p : VibratePayload)
    (h : cxt.vibrate = some (VibratePayload.single 0)) :
    lovetownConnect cxt env
        = lovetownConnect
            ⟨cxt.connectAddress, cxt.timeout, none, cxt.linear,
             cxt.linearDuration⟩ env
      ∧ Event.vibrateCmd i p ∉ okTrace (lovetownConnect cxt env) := by
  have hfalsy : vibrateOptTruthy cxt.vibrate = false := by
    rw [h]
    rfl
  constructor
  · have hh : deviceAddedHandler cxt
        = deviceAddedHandler
            ⟨cxt.connectAddress, cxt.timeout, none, cxt.linear,
             cxt.linearDuration⟩ :=
      funext fun d => handler_vibrate_falsy cxt d hfalsy
    unfold lovetownConnect sessionMain
    rw [hh]
  · intro hm
    rcases mem_okTrace_lovetownConnect cxt env _ hm with h' | h' | h' | h'
    · exact Event.noConfusion h'
    · exact Event.noConfusion h'
    · exact vibrateCmd_not_mem_sessionMain cxt env i p hfalsy h'
    · obtain ⟨j, s, he⟩ := mem_fireTimers_shape _ _ h'
      exact Event.noConfusion he

/-- Witness inputs for C10: `vibrate: 0` together with a linear request and
a device that supports both action kinds — the linear branch is the one
that dispatches. -/
def c10Options : LovetownOptions :=
  ⟨"ws://localhost:12345/buttplug", 3000, some (VibratePayload.single 0),
   some (LinearPayload.single 1), some 500⟩

def c10Env : Env := ⟨fun _ => true, true, [⟨0, 1, 1, true, true⟩], false⟩

theorem c10_witness :
    lovetownConnect c10Options c10Env
        = lovetownConnect
            ⟨c10Options.connectAddress, c10Options.timeout, none,
             c10Options.linear, c10Options.linearDuration⟩ c10Env
      ∧ Event.vibrateCmd 0 (VibratePayload.single 0)
          ∉ okTrace (lovetownConnect c10Options c10Env) :=
  c10_zero_vibration_falls_through c10Options c10Env 0
    (VibratePayload.single 0) rfl
